import Mathlib

/-!
Verification of the pipeline orchestration core of the lowerenv repository.

The definitions below are a shallow embedding of
`backend/src/services/PipelineOrchestrator.ts` (step builder, sequential
runner, step executor, cancellation) and of the deployment trigger route
handler in `backend/src/routes/auth.ts`.  Mongo documents become Lean
structures, `Date` timestamps become `Nat` clock values supplied by the
caller, uuid generation becomes an explicit identifier supply
`ids : Nat → Nat` (the k-th generated identifier is `ids k`), and the
external collaborator services (GitHubService, TerraformService,
HelmService, AnsibleService) become a record of functions returning
`Except String (List String)` — `.ok logs` for a successful call and
`.error msg` for a thrown error.
-/

namespace Lowerenv

/-- Status values shared by deployments, pipelines and steps
(`shared/types.ts`). -/
inductive Status where
  | pending
  | running
  | completed
  | failed
  | skipped
  | cancelled
  deriving DecidableEq

/-- The type-specific configuration payload copied onto a step by the
builder.  Section payloads of the deployment configuration are kept
opaque (a `String` stands for the whole TerraformConfig / HelmConfig /
AnsibleConfig object). -/
inductive StepConfig where
  | cloneCfg (repository branch : String)
  | terraformCfg (cfg : String)
  | helmCfg (cfg targetCluster targetNamespace : String)
  | ansibleCfg (cfg : String)
  deriving DecidableEq

/-- One pipeline step (`PipelineStep` of `shared/types.ts`).  The route
handler in `auth.ts` builds steps without `logs`, `dependencies` or
`config` fields; those become `[]` / `none` here.  `type` is kept as a
string exactly as in the source. -/
structure PipelineStep where
  id : Nat
  name : String
  type : String
  status : Status
  startTime : Option Nat := none
  endTime : Option Nat := none
  logs : List String := []
  dependencies : List Nat := []
  config : Option StepConfig := none
  deriving DecidableEq

/-- The deployment-type sections of a deployment configuration
(`deployment.config` in the source).  Only the three sections the
orchestrator inspects are modelled. -/
structure DeploymentSections where
  terraform : Option String := none
  helm : Option String := none
  ansible : Option String := none
  deriving DecidableEq

/-- A deployment record (the fields of the `Deployment` model the
orchestrator and the trigger route read or write). -/
structure Deployment where
  id : Nat
  name : String
  githubRepo : String
  branch : String
  targetCluster : String
  targetNamespace : String
  deploymentType : String
  status : Status
  lastDeployedAt : Option Nat := none
  config : DeploymentSections
  deriving DecidableEq

/-- A pipeline record (the `Pipeline` model). -/
structure Pipeline where
  id : Nat
  deploymentId : Nat
  status : Status
  steps : List PipelineStep
  startTime : Option Nat := none
  endTime : Option Nat := none
  triggeredBy : String
  deriving DecidableEq

/-- `PipelineOrchestrator.buildPipelineSteps`: translate a deployment
record into the ordered step list.  `ids k` is the k-th uuid generated
inside the call. -/
def buildPipelineSteps (d : Deployment) (ids : Nat → Nat) : List PipelineStep :=
  let cloneStep : PipelineStep :=
    { id := ids 0, name := "Clone Repository", type := "clone",
      status := Status.pending, logs := [], dependencies := [],
      config := some (StepConfig.cloneCfg d.githubRepo d.branch) }
  let steps1 : List PipelineStep :=
    match d.config.terraform with
    | some tf =>
      let planStep : PipelineStep :=
        { id := ids 1, name := "Terraform Plan", type := "terraform-plan",
          status := Status.pending, logs := [], dependencies := [cloneStep.id],
          config := some (StepConfig.terraformCfg tf) }
      let applyStep : PipelineStep :=
        { id := ids 2, name := "Terraform Apply", type := "terraform-apply",
          status := Status.pending, logs := [], dependencies := [planStep.id],
          config := some (StepConfig.terraformCfg tf) }
      [cloneStep, planStep, applyStep]
    | none => [cloneStep]
  let steps2 : List PipelineStep :=
    match d.config.helm with
    | some hc =>
      let helmStep : PipelineStep :=
        { id := ids steps1.length, name := "Helm Deploy", type := "helm-deploy",
          status := Status.pending, logs := [],
          dependencies :=
            match d.config.terraform with
            | some _ => [ids 2]
            | none => [cloneStep.id],
          config := some (StepConfig.helmCfg hc d.targetCluster d.targetNamespace) }
      steps1 ++ [helmStep]
    | none => steps1
  let steps3 : List PipelineStep :=
    match d.config.ansible with
    | some ac =>
      let ansibleStep : PipelineStep :=
        { id := ids steps2.length, name := "Ansible Configuration", type := "ansible-run",
          status := Status.pending, logs := [],
          dependencies := (steps2.getLast?.map PipelineStep.id).toList,
          config := some (StepConfig.ansibleCfg ac) }
      steps2 ++ [ansibleStep]
    | none => steps2
  steps3

/-- `step.config.repository` as read by the clone branch of the executor
(undefined access on a non-clone payload becomes `none`). -/
def configRepository : Option StepConfig → Option String
  | some (StepConfig.cloneCfg r _) => some r
  | _ => none

/-- `step.config.branch` as read by the clone branch of the executor. -/
def configBranch : Option StepConfig → Option String
  | some (StepConfig.cloneCfg _ b) => some b
  | _ => none

/-- The external collaborator services the step executor dispatches to.
A call either returns captured output lines or throws an error message. -/
structure Collaborators where
  cloneRepository : Option String → Option String → Except String Unit
  terraformPlan : Option StepConfig → Except String (List String)
  terraformApply : Option StepConfig → Except String (List String)
  helmDeploy : Option StepConfig → Except String (List String)
  ansibleRun : Option StepConfig → Except String (List String)

/-- The `switch (step.type)` dispatch of `executeStep`: the collaborator
call made for the step, or the thrown "Unknown step type" error on the
default branch. -/
def executeStepCall (C : Collaborators) (step : PipelineStep) : Except String (List String) :=
  match step.type with
  | "clone" =>
    (C.cloneRepository (configRepository step.config) (configBranch step.config)).map
      (fun _ => [])
  | "terraform-plan" => C.terraformPlan step.config
  | "terraform-apply" => C.terraformApply step.config
  | "helm-deploy" => C.helmDeploy step.config
  | "ansible-run" => C.ansibleRun step.config
  | t => Except.error ("Unknown step type: " ++ t)

/-- `PipelineOrchestrator.executeStep`: mark the step running, invoke the
collaborator, record success or recover a thrown error locally, and set
the end timestamp in the `finally` block.  The function is total: no
failure escapes it. -/
def executeStep (C : Collaborators) (now : Nat) (step : PipelineStep) : PipelineStep :=
  let step1 : PipelineStep :=
    { step with
      status := Status.running,
      startTime := some now,
      logs := step.logs ++ ["Starting step: " ++ step.name] }
  let step2 : PipelineStep :=
    match executeStepCall C step1 with
    | Except.ok output =>
      { step1 with
        status := Status.completed,
        logs := (step1.logs ++ output) ++ ["Step completed successfully: " ++ step1.name] }
    | Except.error msg =>
      { step1 with
        status := Status.failed,
        logs := step1.logs ++ ["Step failed: " ++ msg] }
  { step2 with endTime := some now }

/-- `PipelineOrchestrator.areDependenciesCompleted`. -/
def areDependenciesCompleted (step : PipelineStep) (allSteps : List PipelineStep) : Bool :=
  step.dependencies.all fun depId =>
    match allSteps.find? (fun s => s.id == depId) with
    | some dep => dep.status == Status.completed
    | none => false

/-- The `for (const step of pipeline.steps)` loop of `executePipeline`.
`done` holds the already-visited prefix (mutated in place in the source);
the returned flag is `true` exactly when a step failed and the loop
executed `break`, leaving the remaining suffix untouched. -/
def scanSteps (C : Collaborators) (now : Nat) :
    List PipelineStep → List PipelineStep → List PipelineStep × Bool
  | done, [] => (done, false)
  | done, step :: rest =>
    if areDependenciesCompleted step (done ++ step :: rest) then
      if (executeStep C now step).status = Status.failed then
        (done ++ (executeStep C now step) :: rest, true)
      else
        scanSteps C now (done ++ [executeStep C now step]) rest
    else
      scanSteps C now (done ++ [{ step with status := Status.skipped }]) rest

/-- `PipelineOrchestrator.executePipeline`: run the scan, compute the
terminal pipeline status, update the owning deployment record
(`findByIdAndUpdate`), and set the pipeline end timestamp.  Returns the
final pipeline and deployment records. -/
def executePipeline (C : Collaborators) (now : Nat) (p : Pipeline) (d : Deployment) :
    Pipeline × Deployment :=
  let scanned := scanSteps C now [] p.steps
  let p1 : Pipeline :=
    { p with
      steps := scanned.1,
      status := if scanned.2 then Status.failed else p.status }
  if p1.status ≠ Status.failed then
    ({ p1 with status := Status.completed, endTime := some now },
     { d with status := Status.completed, lastDeployedAt := some now })
  else
    ({ p1 with endTime := some now },
     { d with status := Status.failed })

/-- The document store the facade operations read and write: the
pipeline and deployment collections. -/
structure Store where
  pipelines : List Pipeline
  deployments : List Deployment
  deriving DecidableEq

/-- `PipelineModel.findOne({ id })`. -/
def findPipelineRec (ps : List Pipeline) (pipelineId : Nat) : Option Pipeline :=
  ps.find? fun p => p.id == pipelineId

/-- `Deployment.findOne({ id })` / `Deployment.findById(id)`. -/
def findDeploymentRec (ds : List Deployment) (deploymentId : Nat) : Option Deployment :=
  ds.find? fun d => d.id == deploymentId

/-- `pipeline.save()` on an existing document: replace the stored
pipeline carrying the same identifier. -/
def savePipelineRec (ps : List Pipeline) (p : Pipeline) : List Pipeline :=
  ps.map fun q => if q.id == p.id then p else q

/-- `deployment.save()` on an existing document. -/
def saveDeploymentRec (ds : List Deployment) (d : Deployment) : List Deployment :=
  ds.map fun q => if q.id == d.id then d else q

/-- `Deployment.findByIdAndUpdate(id, { status })`. -/
def updateDeploymentStatus (ds : List Deployment) (deploymentId : Nat) (st : Status) :
    List Deployment :=
  ds.map fun d => if d.id == deploymentId then { d with status := st } else d

/-- `PipelineOrchestrator.cancelPipeline`.  The source contains no throw
statement of its own, so every branch returns `.ok`; the `Except` result
type records that the operation could only fail through a storage
rejection, never through an error raised by this method. -/
def cancelPipeline (st : Store) (now : Nat) (pipelineId : Nat) : Except String Store :=
  match findPipelineRec st.pipelines pipelineId with
  | some p =>
    if p.status = Status.running then
      let p1 : Pipeline := { p with status := Status.cancelled, endTime := some now }
      Except.ok
        { pipelines := savePipelineRec st.pipelines p1,
          deployments := updateDeploymentStatus st.deployments p.deploymentId Status.cancelled }
    else
      Except.ok st
  | none => Except.ok st

/-- Outcome of the deployment trigger route: HTTP 404, HTTP 400
("Deployment is already running"), or success carrying the new pipeline
identifier. -/
inductive TriggerResult where
  | notFound
  | conflict
  | ok (pipelineId : Nat)
  deriving DecidableEq

/-- The four hard-coded steps the trigger route handler in `auth.ts`
places on a new pipeline. -/
def routeSteps (dep : Deployment) (ids : Nat → Nat) : List PipelineStep :=
  [ { id := ids 1, name := "Clone Repository", type := "clone", status := Status.pending },
    { id := ids 2, name := "Build Application", type := "build", status := Status.pending },
    { id := ids 3, name := "Deploy with " ++ dep.deploymentType, type := dep.deploymentType,
      status := Status.pending },
    { id := ids 4, name := "Send Notifications", type := "notify", status := Status.pending } ]

/-- The `POST /:id/trigger` route handler of `auth.ts` (the live trigger
path of the repository): look up the deployment, reject a missing one
with 404 and an already-running one with 400, otherwise persist a new
pipeline (uuid `ids 0`, steps `ids 1` to `ids 4`), mark the deployment
running with its last-deployed timestamp, and answer with the pipeline
identifier.  The timer-based status simulation the handler schedules
afterwards touches no state before the response is sent and is outside
this model. -/
def triggerDeployment (st : Store) (now : Nat) (ids : Nat → Nat)
    (deploymentId : Nat) (userEmail : String) : TriggerResult × Store :=
  match findDeploymentRec st.deployments deploymentId with
  | none => (TriggerResult.notFound, st)
  | some dep =>
    if dep.status = Status.running then
      (TriggerResult.conflict, st)
    else
      let pipeline : Pipeline :=
        { id := ids 0, deploymentId := dep.id, status := Status.pending,
          steps := routeSteps dep ids, startTime := some now, triggeredBy := userEmail }
      let dep1 : Deployment := { dep with status := Status.running, lastDeployedAt := some now }
      (TriggerResult.ok pipeline.id,
       { pipelines := pipeline :: st.pipelines,
         deployments := saveDeploymentRec st.deployments dep1 })

/-- Rename the generated identifiers of a step: the step itself and its
dependency references. -/
def relabelStep (f : Nat → Nat) (s : PipelineStep) : PipelineStep :=
  { s with id := f s.id, dependencies := s.dependencies.map f }

/-- `chainFrom prev l` holds when each step of `l` declares exactly the
identifier of the step right before it as its single dependency. -/
def chainFrom (prev : PipelineStep) : List PipelineStep → Bool
  | [] => true
  | s :: rest => decide (s.dependencies = [prev.id]) && chainFrom s rest

/-- A step list is a linear dependency chain: the first step has no
dependencies and every later step depends exactly on its immediate
predecessor. -/
def isLinearChain : List PipelineStep → Bool
  | [] => true
  | s :: rest => s.dependencies.isEmpty && chainFrom s rest

/-- Fixture: a deployment whose configuration carries a terraform and a
helm section but no ansible section. -/
def depTH : Deployment :=
  { id := 1, name := "svc", githubRepo := "https://example.com/r.git", branch := "main",
    targetCluster := "cl", targetNamespace := "ns", deploymentType := "hybrid",
    status := Status.pending, lastDeployedAt := none,
    config := { terraform := some "tfcfg", helm := some "helmcfg", ansible := none } }

/-- Fixture: a deployment carrying terraform, helm and ansible sections. -/
def depTHA : Deployment :=
  { depTH with
    config := { terraform := some "tfcfg", helm := some "helmcfg", ansible := some "anscfg" } }

/-- Fixture: collaborators whose calls all succeed. -/
def collabAllOk : Collaborators :=
  { cloneRepository := fun _ _ => Except.ok (),
    terraformPlan := fun _ => Except.ok ["plan ok"],
    terraformApply := fun _ => Except.ok ["apply ok"],
    helmDeploy := fun _ => Except.ok ["helm ok"],
    ansibleRun := fun _ => Except.ok ["ansible ok"] }

/-- Fixture: collaborators where the terraform apply phase throws. -/
def collabApplyFails : Collaborators :=
  { collabAllOk with terraformApply := fun _ => Except.error "boom" }

/-- Fixture: the running pipeline the orchestrator builds for `depTH`
with the identity uuid supply. -/
def pipelineTH : Pipeline :=
  { id := 10, deploymentId := 1, status := Status.running,
    steps := buildPipelineSteps depTH (fun n => n),
    startTime := some 0, triggeredBy := "user@example.com" }

/-- Fixture: a terraform-apply step about to be executed. -/
def stepApplyW : PipelineStep :=
  { id := 2, name := "Terraform Apply", type := "terraform-apply",
    status := Status.pending, logs := [], dependencies := [1],
    config := some (StepConfig.terraformCfg "tfcfg") }

/-- Fixture: a deployment owning the pipelines of the cancellation
fixtures. -/
def depOwner : Deployment :=
  { id := 5, name := "own", githubRepo := "r", branch := "b",
    targetCluster := "c", targetNamespace := "n", deploymentType := "helm",
    status := Status.running, lastDeployedAt := none, config := {} }

/-- Fixture: a running pipeline whose single step is itself running. -/
def pipelineRunning : Pipeline :=
  { id := 1, deploymentId := 5, status := Status.running,
    steps := [{ id := 21, name := "Clone Repository", type := "clone",
                status := Status.running, startTime := some 3, logs := [],
                dependencies := [], config := none }],
    startTime := some 3, triggeredBy := "user@example.com" }

/-- Fixture: a pending pipeline. -/
def pipelinePending : Pipeline :=
  { id := 2, deploymentId := 5, status := Status.pending,
    steps := [{ id := 22, name := "Clone Repository", type := "clone",
                status := Status.pending, logs := [], dependencies := [], config := none }],
    startTime := some 3, triggeredBy := "user@example.com" }

/-- Fixture: a completed (terminal) pipeline. -/
def pipelineDone : Pipeline :=
  { id := 3, deploymentId := 5, status := Status.completed,
    steps := [], startTime := some 3, endTime := some 4, triggeredBy := "user@example.com" }

/-- Fixture: the store holding the cancellation fixtures. -/
def storeCancel : Store :=
  { pipelines := [pipelineRunning, pipelinePending, pipelineDone],
    deployments := [depOwner] }

/-- Fixture: an empty store. -/
def storeEmpty : Store := { pipelines := [], deployments := [] }

/-- Fixture: a store whose only deployment is currently running. -/
def storeDepRunning : Store :=
  { pipelines := [], deployments := [{ depTH with status := Status.running }] }

/-- Fixture: a store whose only deployment is idle (pending). -/
def storeDepIdle : Store :=
  { pipelines := [], deployments := [depTH] }

/-- Any run of the builder equals the run with the identity uuid supply
with all generated identifiers (step ids and dependency references)
renamed through the actual supply.  In the identity run the k-th step
carries id k, so dependency references are literally positions. -/
lemma build_relabel (d : Deployment) (ids : Nat → Nat) :
    buildPipelineSteps d ids = (buildPipelineSteps d (fun n => n)).map (relabelStep ids) := by
  rcases htf : d.config.terraform with _ | tf <;>
    rcases hh : d.config.helm with _ | hc <;>
      rcases ha : d.config.ansible with _ | ac <;>
        simp [buildPipelineSteps, relabelStep, htf, hh, ha]

/-- C9: for every deployment and identifier supply the built step list
is a linear dependency chain — the first step (clone) has no
dependencies, and every later step declares exactly one dependency,
namely the identifier of the step immediately before it, which appears
strictly earlier in the sequence.  In particular the dependency graph is
acyclic and never branches. -/
theorem buildPipelineSteps_isLinearChain (d : Deployment) (ids : Nat → Nat) :
    isLinearChain (buildPipelineSteps d ids) = true := by
  rcases htf : d.config.terraform with _ | tf <;>
    rcases hh : d.config.helm with _ | hc <;>
      rcases ha : d.config.ansible with _ | ac <;>
        simp [buildPipelineSteps, isLinearChain, chainFrom, htf, hh, ha]

/-- C2 counterexample: the deployment `depTHA` carries both a terraform
section and a helm section, yet the builder produces five steps, not
exactly four — the ansible section appends a fifth step.  The claim as
stated is therefore false. -/
theorem buildPipelineSteps_infra_package_counterexample :
    depTHA.config.terraform.isSome = true ∧ depTHA.config.helm.isSome = true ∧
    (buildPipelineSteps depTHA (fun n => n)).length = 5 ∧
    (buildPipelineSteps depTHA (fun n => n)).length ≠ 4 := by
  refine ⟨rfl, rfl, rfl, ?_⟩
  decide

/-- C2 amended: for every deployment whose configuration carries a
terraform section and a helm section and no ansible section, the builder
produces exactly the four steps clone, terraform-plan, terraform-apply,
helm-deploy in that order, where the clone step has no dependencies and
each later step depends exactly on the identifier of its immediate
predecessor. -/
theorem buildPipelineSteps_infra_package_four_steps (d : Deployment) (ids : Nat → Nat)
    (tfc hc : String) (htf : d.config.terraform = some tfc) (hh : d.config.helm = some hc)
    (ha : d.config.ansible = none) :
    (buildPipelineSteps d ids).map PipelineStep.type
        = ["clone", "terraform-plan", "terraform-apply", "helm-deploy"] ∧
    (buildPipelineSteps d ids).map PipelineStep.id = [ids 0, ids 1, ids 2, ids 3] ∧
    (buildPipelineSteps d ids).map PipelineStep.dependencies
        = [[], [ids 0], [ids 1], [ids 2]] := by
  refine ⟨?_, ?_, ?_⟩ <;> simp [buildPipelineSteps, htf, hh, ha]

/-- C2 witness: the amended four-step theorem evaluated on the concrete
deployment `depTH`. -/
theorem buildPipelineSteps_infra_package_four_steps_witness :
    (buildPipelineSteps depTH (fun n => n)).map PipelineStep.type
        = ["clone", "terraform-plan", "terraform-apply", "helm-deploy"] ∧
    (buildPipelineSteps depTH (fun n => n)).map PipelineStep.id = [0, 1, 2, 3] ∧
    (buildPipelineSteps depTH (fun n => n)).map PipelineStep.dependencies
        = [[], [0], [1], [2]] :=
  buildPipelineSteps_infra_package_four_steps depTH (fun n => n) "tfcfg" "helmcfg" rfl rfl rfl

/-- C8: building twice from the same deployment record yields step
sequences that differ only in the generated identifiers.  Both builds
are the identifier-relabelled image of the one canonical build with the
identity supply (whose step ids are exactly the positions 0, 1, …), so
the two sequences have equal length and agree position-by-position in
step type, name, status, configuration payload, and in which earlier
positions their dependency references point at. -/
theorem buildPipelineSteps_build_twice_same_shape (d : Deployment) (ids1 ids2 : Nat → Nat) :
    buildPipelineSteps d ids1 = (buildPipelineSteps d (fun n => n)).map (relabelStep ids1) ∧
    buildPipelineSteps d ids2 = (buildPipelineSteps d (fun n => n)).map (relabelStep ids2) ∧
    (buildPipelineSteps d ids1).length = (buildPipelineSteps d ids2).length ∧
    (buildPipelineSteps d ids1).map (fun s => (s.type, s.name, s.status, s.config))
        = (buildPipelineSteps d ids2).map (fun s => (s.type, s.name, s.status, s.config)) := by
  refine ⟨build_relabel d ids1, build_relabel d ids2, ?_, ?_⟩ <;>
    rw [build_relabel d ids1, build_relabel d ids2] <;>
      simp [relabelStep, List.map_map, Function.comp]

/-- The executor dispatch reads only the step's type and configuration,
so it is unchanged by the status, timestamp and log mutations performed
before the call. -/
lemma executeStepCall_congr (C : Collaborators) (s t : PipelineStep)
    (hty : s.type = t.type) (hcf : s.config = t.config) :
    executeStepCall C s = executeStepCall C t := by
  unfold executeStepCall
  rw [hty, hcf]

/-- C6: when the collaborator call of a step throws, the failure is
recovered locally — the step ends `failed`, the error message is appended
to its logs after the start line, its end timestamp is set by the
`finally` block, and nothing else of the step changes.  `executeStep` is
a total function, so no exception escapes the runner's step-execution
path. -/
theorem executeStep_failure_recovered (C : Collaborators) (now : Nat) (s : PipelineStep)
    (msg : String) (h : executeStepCall C s = Except.error msg) :
    (executeStep C now s).status = Status.failed ∧
    (executeStep C now s).logs
        = s.logs ++ ["Starting step: " ++ s.name, "Step failed: " ++ msg] ∧
    (executeStep C now s).endTime = some now ∧
    (executeStep C now s).startTime = some now ∧
    (executeStep C now s).id = s.id ∧
    (executeStep C now s).type = s.type ∧
    (executeStep C now s).dependencies = s.dependencies := by
  have h1 : executeStepCall C
      { s with
        status := Status.running, startTime := some now,
        logs := s.logs ++ ["Starting step: " ++ s.name] } = Except.error msg :=
    (executeStepCall_congr C
      { s with
        status := Status.running, startTime := some now,
        logs := s.logs ++ ["Starting step: " ++ s.name] } s rfl rfl).trans h
  simp [executeStep, h1]

/-- C6 witness: the failure-recovery theorem evaluated on the concrete
terraform-apply step and the collaborators whose apply phase throws. -/
theorem executeStep_failure_recovered_witness :
    executeStepCall collabApplyFails stepApplyW = Except.error "boom" ∧
    (executeStep collabApplyFails 7 stepApplyW).status = Status.failed ∧
    (executeStep collabApplyFails 7 stepApplyW).logs
        = ["Starting step: Terraform Apply", "Step failed: boom"] ∧
    (executeStep collabApplyFails 7 stepApplyW).endTime = some 7 := by
  have h := executeStep_failure_recovered collabApplyFails 7 stepApplyW "boom" rfl
  exact ⟨rfl, h.1, by simpa using h.2.1, h.2.2.1⟩

/-- When the scan reports a failure, the input splits at the failing
step: the scan result is some processed prefix of equal length, then the
executed (failed) step, then the input's remaining suffix completely
untouched — the loop executed `break` and never revisited those steps. -/
lemma scanSteps_failed_split (C : Collaborators) (now : Nat) :
    ∀ (steps done : List PipelineStep),
      (scanSteps C now done steps).2 = true →
      ∃ pre pre2 s rest,
        steps = pre ++ s :: rest ∧
        pre2.length = pre.length ∧
        (scanSteps C now done steps).1 = done ++ (pre2 ++ (executeStep C now s) :: rest) ∧
        (executeStep C now s).status = Status.failed := by
  intro steps
  induction steps with
  | nil =>
    intro done h
    simp [scanSteps] at h
  | cons step rest ih =>
    intro done h
    by_cases hdep : areDependenciesCompleted step (done ++ step :: rest) = true
    · by_cases hfail : (executeStep C now step).status = Status.failed
      · refine ⟨[], [], step, rest, rfl, rfl, ?_, hfail⟩
        simp [scanSteps, hdep, hfail]
      · rw [scanSteps, if_pos hdep, if_neg hfail] at h
        obtain ⟨pre, pre2, s, r, hsplit, hlen, hres, hf⟩ := ih (done ++ [executeStep C now step]) h
        refine ⟨step :: pre, executeStep C now step :: pre2, s, r, ?_, ?_, ?_, hf⟩
        · simp [hsplit]
        · simpa using hlen
        · rw [scanSteps, if_pos hdep, if_neg hfail, hres]
          simp
    · rw [scanSteps, if_neg hdep] at h
      obtain ⟨pre, pre2, s, r, hsplit, hlen, hres, hf⟩ :=
        ih (done ++ [{ step with status := Status.skipped }]) h
      refine ⟨step :: pre, { step with status := Status.skipped } :: pre2, s, r, ?_, ?_, ?_, hf⟩
      · simp [hsplit]
      · simpa using hlen
      · rw [scanSteps, if_neg hdep, hres]
        simp

/-- C1 amended: when some step of the scan fails, the pipeline and its
owning deployment end `failed` with the pipeline's end timestamp set,
and the loop stops at the failing step: every step after it — in
particular every step depending on it — is returned exactly as it was in
the input.  For pipelines produced by the builder those steps are still
`pending` (not `skipped`), with no timestamps and with their executors
never invoked. -/
theorem executePipeline_failure_halts (C : Collaborators) (now : Nat) (p : Pipeline)
    (d : Deployment) (h : (scanSteps C now [] p.steps).2 = true) :
    (executePipeline C now p d).1.status = Status.failed ∧
    (executePipeline C now p d).2.status = Status.failed ∧
    (executePipeline C now p d).1.endTime = some now ∧
    ∃ pre pre2 s rest,
      p.steps = pre ++ s :: rest ∧
      pre2.length = pre.length ∧
      (executePipeline C now p d).1.steps = pre2 ++ (executeStep C now s) :: rest ∧
      (executeStep C now s).status = Status.failed := by
  obtain ⟨pre, pre2, s, rest, hsplit, hlen, hres, hf⟩ :=
    scanSteps_failed_split C now p.steps [] h
  refine ⟨?_, ?_, ?_, pre, pre2, s, rest, hsplit, hlen, ?_, hf⟩ <;>
    simp [executePipeline, h, hres]

/-- C1 counterexample: with `depTH` (terraform + helm) and collaborators
whose terraform apply call throws, the helm step — which depends on the
failed apply step — ends `pending`, not `skipped`: after the failure the
runner breaks out of the scan instead of continuing to mark dependents
`skipped`.  The pipeline still ends `failed`. -/
theorem executePipeline_dependent_stays_pending :
    (executePipeline collabApplyFails 1 pipelineTH depTH).1.steps.map PipelineStep.status
        = [Status.completed, Status.completed, Status.failed, Status.pending] ∧
    (executePipeline collabApplyFails 1 pipelineTH depTH).1.status = Status.failed ∧
    Status.pending ≠ Status.skipped := by
  refine ⟨?_, ?_, by decide⟩ <;> rfl

/-- C1 witness: the amended failure theorem evaluated on the concrete
pipeline of `depTH` whose terraform apply step fails. -/
theorem executePipeline_failure_halts_witness :
    (scanSteps collabApplyFails 1 [] pipelineTH.steps).2 = true ∧
    (executePipeline collabApplyFails 1 pipelineTH depTH).1.status = Status.failed ∧
    (executePipeline collabApplyFails 1 pipelineTH depTH).2.status = Status.failed := by
  have h := executePipeline_failure_halts collabApplyFails 1 pipelineTH depTH rfl
  exact ⟨rfl, h.1, h.2.1⟩

/-- C7: every run of the runner ends in one of exactly two terminal
outcomes.  Either the pipeline ends `completed`, the owning deployment is
set to `completed` and its last-deployed timestamp is updated, or the
pipeline ends `failed`, the deployment is set to `failed` and the
last-deployed timestamp is left exactly as it was.  In both cases the
pipeline's end timestamp is set. -/
theorem executePipeline_deployment_matches (C : Collaborators) (now : Nat) (p : Pipeline)
    (d : Deployment) :
    ((executePipeline C now p d).1.status = Status.completed ∧
     (executePipeline C now p d).2.status = Status.completed ∧
     (executePipeline C now p d).2.lastDeployedAt = some now ∧
     (executePipeline C now p d).1.endTime = some now) ∨
    ((executePipeline C now p d).1.status = Status.failed ∧
     (executePipeline C now p d).2.status = Status.failed ∧
     (executePipeline C now p d).2.lastDeployedAt = d.lastDeployedAt ∧
     (executePipeline C now p d).1.endTime = some now) := by
  simp only [executePipeline]
  split
  · right
    simp
  · split
    · left
      exact ⟨rfl, rfl, rfl, rfl⟩
    · right
      rename_i hne
      exact ⟨not_not.mp hne, rfl, rfl, rfl⟩

/-- Looking up a key after a keyed in-place replacement: if `find?`
located `a` under key `k` and the replacement preserves the key of the
matching element, the lookup after the `map` returns the replaced
element. -/
lemma find_after_replace {α : Type} (key : α → Nat) (k : Nat) (g : α → α)
    (hg : ∀ x, (key x == k) = true → key (g x) = key x) :
    ∀ (l : List α) (a : α),
      l.find? (fun x => key x == k) = some a →
      (l.map fun x => if key x == k then g x else x).find? (fun x => key x == k) = some (g a) := by
  intro l
  induction l with
  | nil =>
    intro a h
    simp at h
  | cons x xs ih =>
    intro a h
    by_cases hx : (key x == k) = true
    · have hhead : List.find? (fun y => key y == k) (x :: xs) = some x :=
        List.find?_cons_of_pos xs hx
      rw [hhead] at h
      obtain rfl : x = a := Option.some.inj h
      have hka : (key (g x) == k) = true := by
        rw [hg x hx]
        exact hx
      rw [List.map_cons, if_pos hx]
      exact List.find?_cons_of_pos _ hka
    · have hhead : List.find? (fun y => key y == k) (x :: xs)
          = List.find? (fun y => key y == k) xs :=
        List.find?_cons_of_neg xs hx
      rw [hhead] at h
      rw [List.map_cons, if_neg hx]
      have htail : List.find? (fun y => key y == k)
          (x :: List.map (fun y => if key y == k then g y else y) xs)
          = List.find? (fun y => key y == k)
              (List.map (fun y => if key y == k then g y else y) xs) :=
        List.find?_cons_of_neg _ hx
      rw [htail]
      exact ih a h

/-- Saving a pipeline that keeps the looked-up identifier makes the
subsequent lookup return the saved record. -/
lemma findPipelineRec_save (ps : List Pipeline) (pid : Nat) (p p1 : Pipeline)
    (hfind : findPipelineRec ps pid = some p) (hid : p1.id = pid) :
    findPipelineRec (savePipelineRec ps p1) pid = some p1 := by
  simp only [findPipelineRec, savePipelineRec, hid] at hfind ⊢
  exact find_after_replace Pipeline.id pid (fun _ => p1)
    (fun x hx => by rw [hid]; symm; simpa using hx) ps p hfind

/-- Saving a deployment that keeps the looked-up identifier makes the
subsequent lookup return the saved record. -/
lemma findDeploymentRec_save (ds : List Deployment) (did : Nat) (dep dep1 : Deployment)
    (hfind : findDeploymentRec ds did = some dep) (hid : dep1.id = did) :
    findDeploymentRec (saveDeploymentRec ds dep1) did = some dep1 := by
  simp only [findDeploymentRec, saveDeploymentRec, hid] at hfind ⊢
  exact find_after_replace Deployment.id did (fun _ => dep1)
    (fun x hx => by rw [hid]; symm; simpa using hx) ds dep hfind

/-- `findByIdAndUpdate` on the status field, observed through a
subsequent lookup. -/
lemma findDeploymentRec_update (ds : List Deployment) (did : Nat) (dep : Deployment) (st : Status)
    (hfind : findDeploymentRec ds did = some dep) :
    findDeploymentRec (updateDeploymentStatus ds did st) did = some { dep with status := st } := by
  simp only [findDeploymentRec, updateDeploymentStatus] at hfind ⊢
  exact find_after_replace Deployment.id did (fun d => { d with status := st })
    (fun x _ => rfl) ds dep hfind

/-- C4 counterexample: cancelling the running pipeline of `storeCancel`
leaves its running step in `running` status — steps are never forced to
`cancelled` — and cancelling the pending pipeline (id 2) changes nothing
at all, because `cancelPipeline` only acts when the pipeline status is
exactly `running`.  Both parts contradict the claim. -/
theorem cancelPipeline_claim_counterexample :
    ((cancelPipeline storeCancel 9 1).toOption.bind fun s =>
      (findPipelineRec s.pipelines 1).map fun p => p.steps.map PipelineStep.status)
        = some [Status.running] ∧
    Status.running ≠ Status.cancelled ∧
    pipelinePending.status = Status.pending ∧
    cancelPipeline storeCancel 9 2 = Except.ok storeCancel := by
  refine ⟨rfl, by decide, rfl, rfl⟩

/-- C4 amended: for a pipeline found in `running` status, cancel sets the
pipeline's status to `cancelled` with its end timestamp set and sets the
owning deployment's status to `cancelled`; the pipeline's steps are left
completely untouched (the record saved is `p` with only status and end
timestamp changed).  For a pipeline found in `pending` status the call is
a no-op: nothing is cancelled. -/
theorem cancelPipeline_running_behavior (st : Store) (now pid : Nat) (p : Pipeline)
    (hp : findPipelineRec st.pipelines pid = some p) :
    (p.status = Status.running →
      ∃ st1, cancelPipeline st now pid = Except.ok st1 ∧
        findPipelineRec st1.pipelines pid
            = some { p with status := Status.cancelled, endTime := some now } ∧
        (∀ dep, findDeploymentRec st.deployments p.deploymentId = some dep →
          findDeploymentRec st1.deployments p.deploymentId
              = some { dep with status := Status.cancelled })) ∧
    (p.status = Status.pending → cancelPipeline st now pid = Except.ok st) := by
  have hpid : p.id = pid := by
    simpa using List.find?_some hp
  constructor
  · intro hrun
    refine ⟨Store.mk
        (savePipelineRec st.pipelines { p with status := Status.cancelled, endTime := some now })
        (updateDeploymentStatus st.deployments p.deploymentId Status.cancelled), ?_, ?_, ?_⟩
    · simp [cancelPipeline, hp, hrun]
    · exact findPipelineRec_save st.pipelines pid p _ hp hpid
    · intro dep hdep
      exact findDeploymentRec_update st.deployments p.deploymentId dep Status.cancelled hdep
  · intro hpend
    simp [cancelPipeline, hp, hpend]

/-- C4 witness: the amended cancellation theorem evaluated on the
concrete store whose pipeline 1 is running with a running step and whose
owning deployment is `depOwner`. -/
theorem cancelPipeline_running_behavior_witness :
    ∃ st1, cancelPipeline storeCancel 9 1 = Except.ok st1 ∧
      findPipelineRec st1.pipelines 1
          = some { pipelineRunning with status := Status.cancelled, endTime := some 9 } ∧
      findDeploymentRec st1.deployments 5 = some { depOwner with status := Status.cancelled } := by
  obtain ⟨st1, h1, h2, h3⟩ :=
    (cancelPipeline_running_behavior storeCancel 9 1 pipelineRunning rfl).1 rfl
  exact ⟨st1, h1, h2, h3 depOwner rfl⟩

/-- C5 counterexample: cancelling the already-completed pipeline 3 of
`storeCancel` does not fail with any error — the call returns `.ok` with
the store unchanged.  No `InvalidState` failure is surfaced to the
caller, contradicting the claim (the no-change half of the claim is the
part that does hold). -/
theorem cancelPipeline_terminal_counterexample :
    pipelineDone.status = Status.completed ∧
    cancelPipeline storeCancel 9 3 = Except.ok storeCancel := ⟨rfl, rfl⟩

/-- C5 amended: cancelling a pipeline whose status is terminal
(`completed`, `failed` or `cancelled`) is a silent no-op: the call
returns normally with no error and neither the pipeline record nor the
owning deployment record is changed. -/
theorem cancelPipeline_terminal_noop (st : Store) (now pid : Nat) (p : Pipeline)
    (hp : findPipelineRec st.pipelines pid = some p)
    (hterm : p.status = Status.completed ∨ p.status = Status.failed ∨
      p.status = Status.cancelled) :
    cancelPipeline st now pid = Except.ok st := by
  rcases hterm with h | h | h <;> simp [cancelPipeline, hp, h]

/-- C5 witness: the terminal no-op theorem evaluated on the completed
pipeline 3 of `storeCancel`. -/
theorem cancelPipeline_terminal_noop_witness :
    pipelineDone.status = Status.completed ∧
    cancelPipeline storeCancel 11 3 = Except.ok storeCancel :=
  ⟨rfl, cancelPipeline_terminal_noop storeCancel 11 3 pipelineDone rfl (Or.inl rfl)⟩

/-- C10: cancelling a pipeline identifier that matches no stored pipeline
returns normally — no error of any kind — and leaves the store exactly as
it was: a silent no-op rather than a NotFound failure. -/
theorem cancelPipeline_missing_noop (st : Store) (now pid : Nat)
    (hp : findPipelineRec st.pipelines pid = none) :
    cancelPipeline st now pid = Except.ok st := by
  rw [cancelPipeline, hp]

/-- C10 witness: the missing-pipeline no-op theorem evaluated on the
empty store. -/
theorem cancelPipeline_missing_noop_witness :
    findPipelineRec storeEmpty.pipelines 42 = none ∧
    cancelPipeline storeEmpty 0 42 = Except.ok storeEmpty :=
  ⟨rfl, cancelPipeline_missing_noop storeEmpty 0 42 rfl⟩

/-- C3: the trigger endpoint's contract.  A missing deployment yields
the NotFound outcome with the store unchanged; a deployment already in
`running` status yields the Conflict outcome with the store unchanged —
no pipeline is created and the deployment record is untouched; otherwise
the handler answers with the identifier of a newly persisted pipeline
(uuid `ids 0`, four pending steps, start timestamp set, owned by the
deployment) and the deployment record is saved as `running` with its
last-deployed timestamp set. -/
theorem triggerDeployment_contract (st : Store) (now : Nat) (ids : Nat → Nat)
    (did : Nat) (user : String) :
    (findDeploymentRec st.deployments did = none →
      triggerDeployment st now ids did user = (TriggerResult.notFound, st)) ∧
    (∀ dep, findDeploymentRec st.deployments did = some dep →
      dep.status = Status.running →
      triggerDeployment st now ids did user = (TriggerResult.conflict, st)) ∧
    (∀ dep, findDeploymentRec st.deployments did = some dep →
      dep.status ≠ Status.running →
      (triggerDeployment st now ids did user).1 = TriggerResult.ok (ids 0) ∧
      (triggerDeployment st now ids did user).2.pipelines
          = { id := ids 0, deploymentId := dep.id, status := Status.pending,
              steps := routeSteps dep ids, startTime := some now,
              triggeredBy := user } :: st.pipelines ∧
      findDeploymentRec (triggerDeployment st now ids did user).2.deployments did
          = some { dep with status := Status.running, lastDeployedAt := some now }) := by
  refine ⟨?_, ?_, ?_⟩
  · intro hnone
    simp [triggerDeployment, hnone]
  · intro dep hdep hrun
    simp [triggerDeployment, hdep, hrun]
  · intro dep hdep hnrun
    have hdid : dep.id = did := by
      simpa using List.find?_some hdep
    refine ⟨?_, ?_, ?_⟩
    · simp [triggerDeployment, hdep, hnrun]
    · simp [triggerDeployment, hdep, hnrun]
    · have hsave : findDeploymentRec
          (saveDeploymentRec st.deployments
            { dep with status := Status.running, lastDeployedAt := some now }) did
          = some { dep with status := Status.running, lastDeployedAt := some now } :=
        findDeploymentRec_save st.deployments did dep _ hdep hdid
      simp only [triggerDeployment, hdep]
      rw [if_neg hnrun]
      exact hsave

/-- C3 witness: the trigger contract evaluated on three concrete stores —
no deployment, a running deployment, and an idle deployment. -/
theorem triggerDeployment_contract_witness :
    triggerDeployment storeEmpty 0 (fun n => n) 1 "u" = (TriggerResult.notFound, storeEmpty) ∧
    triggerDeployment storeDepRunning 0 (fun n => n) 1 "u"
        = (TriggerResult.conflict, storeDepRunning) ∧
    (triggerDeployment storeDepIdle 0 (fun n => n) 1 "u").1 = TriggerResult.ok 0 ∧
    findDeploymentRec (triggerDeployment storeDepIdle 0 (fun n => n) 1 "u").2.deployments 1
        = some { depTH with status := Status.running, lastDeployedAt := some 0 } := by
  refine ⟨(triggerDeployment_contract storeEmpty 0 (fun n => n) 1 "u").1 rfl,
    (triggerDeployment_contract storeDepRunning 0 (fun n => n) 1 "u").2.1
      { depTH with status := Status.running } rfl rfl,
    ((triggerDeployment_contract storeDepIdle 0 (fun n => n) 1 "u").2.2 depTH rfl
      (by decide)).1,
    ((triggerDeployment_contract storeDepIdle 0 (fun n => n) 1 "u").2.2 depTH rfl
      (by decide)).2.2⟩

end Lowerenv
